import Mathlib

/-!
Shallow embedding of `Sources/libpylamsupport/LambdaBuilder.c` (PythonKit
lambda-support shim).

The C file keeps seven process-wide globals: a stored library handle
(`_pythonLibraryHandle`) and six function-pointer slots resolved by
`initialisePythonLibrary` via `dlsym`.  All other functions are thin
marshalling shims that call through those slots.

Modelling choices:
* A function address (a non-NULL `dlsym` result) is a `Nat`; `dlsym`
  returns `Option Addr`, `none` standing for `NULL`.
* A machine word (`Word := Int`) stands for any value that crosses the
  shim uninterpreted: `PyObject*` and `char*` pointers, `long` values and
  `double` bit patterns.  The shim never computes with these, it only
  moves them, so one uninterpreted carrier is faithful to the C.
* A library handle is denoted by its symbol table (what `dlsym` on it
  returns for each name).
* Calls through a resolved address are interpreted by an environment
  `FnEnv` giving the behaviour of the foreign function at each address;
  each shim function also returns the list of foreign calls it made
  (`CallEvent`), so "delegates exactly once with format ..." is a theorem.
* Calling through a NULL function pointer is undefined behaviour: the
  outcome `COutcome.undef`.  `exit(1)` after a diagnostic `printf` is the
  outcome `COutcome.exited 1 msg`.
* C globals are threaded explicitly: every function takes the global
  state `ShimState` and returns the (possibly updated) state.
-/

/-- A non-NULL function address inside the loaded Python library. -/
abbrev Addr := Nat

/-- An uninterpreted machine word: `PyObject*`, `char*`, `long`, or the
bit pattern of a `double`.  The shim moves these without looking inside. -/
abbrev Word := Int

/-- The C `NULL` pointer as a `Word`. -/
def nullPtr : Word := 0

/-- A loaded dynamic-library handle, denoted by its symbol table:
`sym name` is the address `dlsym`/`GetProcAddress` yields for `name`,
or `none` when the symbol is absent (`NULL`). -/
structure LibHandle where
  sym : String → Option Addr

/-- `dlsym(handle, name)` (`GetProcAddress` on Windows): look a name up in
the handle's symbol table; `none` models a `NULL` result. -/
def dlsym (h : LibHandle) (name : String) : Option Addr :=
  h.sym name

/-- The seven process-wide globals of `LambdaBuilder.c`:
`static void* _pythonLibraryHandle` and the six entry-point slots
(`pyarg_parsetuple`, `py_buildvalue`, `pyunicode_asutf8`,
`pyunicode_fromstring`, `py_createPyCFunction`, `py_boolfromlong`).
`none` models a NULL pointer in a slot. -/
structure ShimState where
  pythonLibraryHandle : Option LibHandle
  pyarg_parsetuple : Option Addr
  py_buildvalue : Option Addr
  pyunicode_asutf8 : Option Addr
  pyunicode_fromstring : Option Addr
  py_createPyCFunction : Option Addr
  py_boolfromlong : Option Addr

/-- C zero-initialises file-scope globals: every slot and the stored
handle start out NULL. -/
def initialState : ShimState :=
  { pythonLibraryHandle := none
    pyarg_parsetuple := none
    py_buildvalue := none
    pyunicode_asutf8 := none
    pyunicode_fromstring := none
    py_createPyCFunction := none
    py_boolfromlong := none }

/-- The six symbol roles resolved by the initialiser, one per slot. -/
inductive SymbolRole where
  | parseTuple
  | buildValue
  | asUTF8
  | fromString
  | boolFromLong
  | cFunctionNewEx
deriving DecidableEq

/-- The exact symbol name the C code looks up for each role. -/
def roleName : SymbolRole → String
  | SymbolRole.parseTuple => "PyArg_ParseTuple"
  | SymbolRole.buildValue => "Py_BuildValue"
  | SymbolRole.asUTF8 => "PyUnicode_AsUTF8"
  | SymbolRole.fromString => "PyUnicode_FromString"
  | SymbolRole.boolFromLong => "PyBool_FromLong"
  | SymbolRole.cFunctionNewEx => "PyCFunction_NewEx"

/-- The slot of the state holding each role's resolved address. -/
def slotOf (st : ShimState) : SymbolRole → Option Addr
  | SymbolRole.parseTuple => st.pyarg_parsetuple
  | SymbolRole.buildValue => st.py_buildvalue
  | SymbolRole.asUTF8 => st.pyunicode_asutf8
  | SymbolRole.fromString => st.pyunicode_fromstring
  | SymbolRole.boolFromLong => st.py_boolfromlong
  | SymbolRole.cFunctionNewEx => st.py_createPyCFunction

/-- `initialisePythonLibrary` (LambdaBuilder.c lines 20-37): stores the
handle in `_pythonLibraryHandle`, then resolves each of the six symbol
names against it (the POSIX branch resolves through the just-stored
static, which holds the same value) and stores each result in its slot.

The C function is declared `int` but its body contains no `return`
statement: the value the caller receives is indeterminate, modelled as
the `Option Int` component being `none`. -/
def initialisePythonLibrary (st : ShimState) (libraryHandle : LibHandle) :
    ShimState × Option Int :=
  ({ st with
      pythonLibraryHandle := some libraryHandle
      pyarg_parsetuple := dlsym libraryHandle "PyArg_ParseTuple"
      py_buildvalue := dlsym libraryHandle "Py_BuildValue"
      pyunicode_asutf8 := dlsym libraryHandle "PyUnicode_AsUTF8"
      pyunicode_fromstring := dlsym libraryHandle "PyUnicode_FromString"
      py_boolfromlong := dlsym libraryHandle "PyBool_FromLong"
      py_createPyCFunction := dlsym libraryHandle "PyCFunction_NewEx" },
   none)

/-- One foreign call made by a shim function: which resolved address was
invoked and with which arguments (format strings are the C literals). -/
inductive CallEvent where
  | parseTuple (a : Addr) (args : Word) (fmt : String)
  | buildValue (a : Addr) (fmt : String) (vs : List Word)
  | asUTF8 (a : Addr) (p : Word)
  | fromString (a : Addr) (u : Word)
  | boolFromLong (a : Addr) (v : Word)
  | cFunctionNewEx (a : Addr) (ml : Word) (data : Word) (module0 : Word)
deriving DecidableEq

/-- Outcome of running one shim function: a normal return, process
termination with an exit code after printing a diagnostic, or undefined
behaviour (a call through a NULL function pointer, or a read of an
indeterminate local). -/
inductive COutcome (α : Type) where
  | ok (val : α)
  | exited (code : Nat) (diagnostic : String)
  | undef
deriving DecidableEq

/-- Behaviour of the foreign Python C-API functions, indexed by the
resolved address called.  `callParseTuple` returns the `int` status and
the list of words the callee wrote through the variadic out-pointers, in
order; the other entry points return their `PyObject*`/`const char*`
result as a word. -/
structure FnEnv where
  callParseTuple : Addr → Word → String → Int × List Word
  callBuildValue : Addr → String → List Word → Word
  callAsUTF8 : Addr → Word → Word
  callFromString : Addr → Word → Word
  callBoolFromLong : Addr → Word → Word
  callCFunctionNewEx : Addr → Word → Word → Word → Word

/-- Result of a shim call: the global state afterwards, the foreign calls
made, and the outcome. -/
abbrev ShimResult (α : Type) := ShimState × List CallEvent × COutcome α

/-- Read back the single out-value of a `PyArg_ParseTuple` call that was
passed one out-pointer, paired with the status stored in `*error`.  If
the callee wrote anything other than exactly one word, the local the C
code returns is indeterminate (or foreign memory was corrupted):
undefined. -/
def readOut1 (r : Int × List Word) : COutcome (Word × Int) :=
  match r.2 with
  | [v] => COutcome.ok (v, r.1)
  | _ => COutcome.undef

/-- As `readOut1` for a call passed two out-pointers (`"OO"`). -/
def readOut2 (r : Int × List Word) : COutcome (Word × Word × Int) :=
  match r.2 with
  | [va, vb] => COutcome.ok (va, vb, r.1)
  | _ => COutcome.undef

/-- As `readOut1` for a call passed three out-pointers (`"OOO"`). -/
def readOut3 (r : Int × List Word) : COutcome (Word × Word × Word × Int) :=
  match r.2 with
  | [va, vb, vc] => COutcome.ok (va, vb, vc, r.1)
  | _ => COutcome.undef

/-- `parseArgsToString` (lines 39-45): calls
`(*pyarg_parsetuple)(args, "s", &value)`, stores the status in `*error`
and returns `value`.  Result: `(value, *error)`. -/
def parseArgsToString (env : FnEnv) (st : ShimState) (args : Word) :
    ShimResult (Word × Int) :=
  match st.pyarg_parsetuple with
  | none => (st, [], COutcome.undef)
  | some a =>
      (st, [CallEvent.parseTuple a args "s"],
       readOut1 (env.callParseTuple a args "s"))

/-- `parseArgsToDouble` (lines 47-53): as `parseArgsToString` with
format `"d"` and a `double` out-value. -/
def parseArgsToDouble (env : FnEnv) (st : ShimState) (args : Word) :
    ShimResult (Word × Int) :=
  match st.pyarg_parsetuple with
  | none => (st, [], COutcome.undef)
  | some a =>
      (st, [CallEvent.parseTuple a args "d"],
       readOut1 (env.callParseTuple a args "d"))

/-- `parseArgsToLongInt` (lines 56-62): as `parseArgsToString` with
format `"l"` and a `long int` out-value. -/
def parseArgsToLongInt (env : FnEnv) (st : ShimState) (args : Word) :
    ShimResult (Word × Int) :=
  match st.pyarg_parsetuple with
  | none => (st, [], COutcome.undef)
  | some a =>
      (st, [CallEvent.parseTuple a args "l"],
       readOut1 (env.callParseTuple a args "l"))

/-- `parseArgsToObject` (lines 64-70): as `parseArgsToString` with
format `"O"` and a `PyObject*` out-value. -/
def parseArgsToObject (env : FnEnv) (st : ShimState) (args : Word) :
    ShimResult (Word × Int) :=
  match st.pyarg_parsetuple with
  | none => (st, [], COutcome.undef)
  | some a =>
      (st, [CallEvent.parseTuple a args "O"],
       readOut1 (env.callParseTuple a args "O"))

/-- `parseArgsToObjectPair` (lines 72-80): calls
`(*pyarg_parsetuple)(args, "OO", &valueA, &valueB)`, stores the status in
`*error`, writes `valueB` through `*objectB` and returns `valueA`.
Result: `(valueA, *objectB, *error)`. -/
def parseArgsToObjectPair (env : FnEnv) (st : ShimState) (args : Word) :
    ShimResult (Word × Word × Int) :=
  match st.pyarg_parsetuple with
  | none => (st, [], COutcome.undef)
  | some a =>
      (st, [CallEvent.parseTuple a args "OO"],
       readOut2 (env.callParseTuple a args "OO"))

/-- `parseArgsToObjectTriple` (lines 82-92): calls
`(*pyarg_parsetuple)(args, "OOO", &valueA, &valueB, &valueC)`.
Result: `(valueA, *objectB, *objectC, *error)`. -/
def parseArgsToObjectTriple (env : FnEnv) (st : ShimState) (args : Word) :
    ShimResult (Word × Word × Word × Int) :=
  match st.pyarg_parsetuple with
  | none => (st, [], COutcome.undef)
  | some a =>
      (st, [CallEvent.parseTuple a args "OOO"],
       readOut3 (env.callParseTuple a args "OOO"))

/-- `wrapLongInt` (lines 94-97): returns `(*py_buildvalue)("l", value)`. -/
def wrapLongInt (env : FnEnv) (st : ShimState) (value : Word) :
    ShimResult Word :=
  match st.py_buildvalue with
  | none => (st, [], COutcome.undef)
  | some a =>
      (st, [CallEvent.buildValue a "l" [value]],
       COutcome.ok (env.callBuildValue a "l" [value]))

/-- `wrapString` (lines 99-102): returns `(*py_buildvalue)("s", value)`. -/
def wrapString (env : FnEnv) (st : ShimState) (value : Word) :
    ShimResult Word :=
  match st.py_buildvalue with
  | none => (st, [], COutcome.undef)
  | some a =>
      (st, [CallEvent.buildValue a "s" [value]],
       COutcome.ok (env.callBuildValue a "s" [value]))

/-- `wrapDouble` (lines 104-107): returns `(*py_buildvalue)("d", value)`. -/
def wrapDouble (env : FnEnv) (st : ShimState) (value : Word) :
    ShimResult Word :=
  match st.py_buildvalue with
  | none => (st, [], COutcome.undef)
  | some a =>
      (st, [CallEvent.buildValue a "d" [value]],
       COutcome.ok (env.callBuildValue a "d" [value]))

/-- `wrapObject` (lines 109-112): returns `(*py_buildvalue)("O", value)`. -/
def wrapObject (env : FnEnv) (st : ShimState) (value : Word) :
    ShimResult Word :=
  match st.py_buildvalue with
  | none => (st, [], COutcome.undef)
  | some a =>
      (st, [CallEvent.buildValue a "O" [value]],
       COutcome.ok (env.callBuildValue a "O" [value]))

/-- `wrapBool` (lines 114-117): returns `(*py_boolfromlong)(value)`. -/
def wrapBool (env : FnEnv) (st : ShimState) (value : Word) :
    ShimResult Word :=
  match st.py_boolfromlong with
  | none => (st, [], COutcome.undef)
  | some a =>
      (st, [CallEvent.boolFromLong a value],
       COutcome.ok (env.callBoolFromLong a value))

/-- `stringFromPythonObject` (lines 150-152): returns
`(*pyunicode_asutf8)(p)`. -/
def stringFromPythonObject (env : FnEnv) (st : ShimState) (p : Word) :
    ShimResult Word :=
  match st.pyunicode_asutf8 with
  | none => (st, [], COutcome.undef)
  | some a =>
      (st, [CallEvent.asUTF8 a p], COutcome.ok (env.callAsUTF8 a p))

/-- The diagnostic `getPyUnicode_FromString` prints before `exit(1)`. -/
def py2Diagnostic : String := "Lambda functions not available on Python 2!\n"

/-- `getPyUnicode_FromString` (lines 160-166): if the
`pyunicode_fromstring` slot is NULL, prints the Python-2 diagnostic and
calls `exit(1)`; otherwise returns `(*pyunicode_fromstring)(u)`. -/
def getPyUnicode_FromString (env : FnEnv) (st : ShimState) (u : Word) :
    ShimResult Word :=
  match st.pyunicode_fromstring with
  | none => (st, [], COutcome.exited 1 py2Diagnostic)
  | some a =>
      (st, [CallEvent.fromString a u], COutcome.ok (env.callFromString a u))

/-- `createPyCFunction` (lines 168-170): returns
`(*py_createPyCFunction)(ml, data, NULL)` — the third (module) argument
is the hardcoded literal `NULL`. -/
def createPyCFunction (env : FnEnv) (st : ShimState) (ml data : Word) :
    ShimResult Word :=
  match st.py_createPyCFunction with
  | none => (st, [], COutcome.undef)
  | some a =>
      (st, [CallEvent.cFunctionNewEx a ml data nullPtr],
       COutcome.ok (env.callCFunctionNewEx a ml data nullPtr))

/-! ## Concrete fixtures used by the witnesses -/

/-- A test library handle exporting all six symbols at distinct addresses. -/
def libAll : LibHandle :=
  ⟨fun name =>
    if name = "PyArg_ParseTuple" then some 11
    else if name = "Py_BuildValue" then some 12
    else if name = "PyUnicode_AsUTF8" then some 13
    else if name = "PyUnicode_FromString" then some 14
    else if name = "PyBool_FromLong" then some 15
    else if name = "PyCFunction_NewEx" then some 16
    else none⟩

/-- A test library handle exporting no symbols at all. -/
def libNone : LibHandle := ⟨fun _ => none⟩

/-- The global state after resolving against `libAll`. -/
def testState : ShimState := (initialisePythonLibrary initialState libAll).1

/-- A stub behaviour for the foreign entry points: `PyArg_ParseTuple`
writes one `42` per format character and reports status `1`; the
constructors return recognisable values. -/
def testEnv : FnEnv :=
  { callParseTuple := fun _ _ fmt => (1, List.replicate fmt.length 42)
    callBuildValue := fun _ _ vs => vs.headD 0 + 100
    callAsUTF8 := fun _ p => p + 300
    callFromString := fun _ u => u + 400
    callBoolFromLong := fun _ v => v + 200
    callCFunctionNewEx := fun _ ml data m => ml + data + m + 500 }

/-! ## Claim theorems -/

/-- C1: `initialisePythonLibrary` performs a symbol lookup against the
supplied handle for each of the six required names and stores each lookup
result in the slot for that symbol's role: after the call, every slot
equals the `dlsym` result for its exact symbol name. -/
theorem initialisePythonLibrary_sets_each_slot_to_lookup
    (st : ShimState) (h : LibHandle) (role : SymbolRole) :
    slotOf (initialisePythonLibrary st h).1 role = dlsym h (roleName role) := by
  cases role <;> rfl

/-- C5: if one of the six symbols is absent from the library (`dlsym`
returns NULL), `initialisePythonLibrary` leaves that symbol's slot NULL;
the call still completes normally (it stores the handle and carries on),
raising no error at resolution time. -/
theorem initialisePythonLibrary_absent_symbol_slot_null
    (st : ShimState) (h : LibHandle) (role : SymbolRole)
    (habs : dlsym h (roleName role) = none) :
    slotOf (initialisePythonLibrary st h).1 role = none ∧
      (initialisePythonLibrary st h).1.pythonLibraryHandle = some h := by
  refine ⟨?_, rfl⟩
  cases role <;> simpa [initialisePythonLibrary, slotOf] using habs

/-- Witness for C5: resolving against a library exporting no symbols
leaves the `PyUnicode_FromString` slot NULL. -/
theorem initialisePythonLibrary_absent_symbol_slot_null_check :
    slotOf (initialisePythonLibrary initialState libNone).1
        SymbolRole.fromString = none ∧
      (initialisePythonLibrary initialState libNone).1.pythonLibraryHandle =
        some libNone :=
  initialisePythonLibrary_absent_symbol_slot_null initialState libNone
    SymbolRole.fromString rfl

/-- C6: `initialisePythonLibrary` is idempotent: calling it twice in
succession with the same handle leaves the six slots and the stored
handle exactly as one call does (each call re-resolves and overwrites
every slot). -/
theorem initialisePythonLibrary_idempotent (st : ShimState) (h : LibHandle) :
    initialisePythonLibrary (initialisePythonLibrary st h).1 h =
      initialisePythonLibrary st h := by
  rfl

/-- Counterexample for C7: at a concrete state and handle, the value the
caller receives from `initialisePythonLibrary` is not a defined integer:
the C body is declared `int` but contains no `return` statement, so the
status component is indeterminate (`none`), refuting the claim that the
operation returns an integer status value to its caller. -/
theorem initialisePythonLibrary_no_status_counterexample :
    ¬ ((initialisePythonLibrary initialState libAll).2.isSome = true) := by
  simp [initialisePythonLibrary]

/-- C7 (amended): `initialisePythonLibrary` is declared with return type
`int`, but its body contains no `return` statement, so no defined integer
status value is returned to the caller; the caller must not rely on the
value. -/
theorem initialisePythonLibrary_returns_no_defined_status
    (st : ShimState) (h : LibHandle) :
    (initialisePythonLibrary st h).2 = none := rfl

/-- C2: each parse operation delegates exactly once to the resolved
`PyArg_ParseTuple` entry point with its fixed format specifier
(`"s"`, `"l"`, `"d"`, `"O"`, `"OO"`, `"OOO"`), returns exactly the
value(s) the underlying call wrote through the out-pointers (the first as
return value, the rest through the out-parameters), and sets `*error` to
exactly the integer status the underlying call returned. -/
theorem parse_ops_delegate_once_and_pass_through :
    (∀ (env : FnEnv) (st : ShimState) (args : Word) (a : Addr)
        (status : Int) (v : Word),
        st.pyarg_parsetuple = some a →
        env.callParseTuple a args "s" = (status, [v]) →
        parseArgsToString env st args =
          (st, [CallEvent.parseTuple a args "s"], COutcome.ok (v, status))) ∧
    (∀ (env : FnEnv) (st : ShimState) (args : Word) (a : Addr)
        (status : Int) (v : Word),
        st.pyarg_parsetuple = some a →
        env.callParseTuple a args "l" = (status, [v]) →
        parseArgsToLongInt env st args =
          (st, [CallEvent.parseTuple a args "l"], COutcome.ok (v, status))) ∧
    (∀ (env : FnEnv) (st : ShimState) (args : Word) (a : Addr)
        (status : Int) (v : Word),
        st.pyarg_parsetuple = some a →
        env.callParseTuple a args "d" = (status, [v]) →
        parseArgsToDouble env st args =
          (st, [CallEvent.parseTuple a args "d"], COutcome.ok (v, status))) ∧
    (∀ (env : FnEnv) (st : ShimState) (args : Word) (a : Addr)
        (status : Int) (v : Word),
        st.pyarg_parsetuple = some a →
        env.callParseTuple a args "O" = (status, [v]) →
        parseArgsToObject env st args =
          (st, [CallEvent.parseTuple a args "O"], COutcome.ok (v, status))) ∧
    (∀ (env : FnEnv) (st : ShimState) (args : Word) (a : Addr)
        (status : Int) (va vb : Word),
        st.pyarg_parsetuple = some a →
        env.callParseTuple a args "OO" = (status, [va, vb]) →
        parseArgsToObjectPair env st args =
          (st, [CallEvent.parseTuple a args "OO"],
           COutcome.ok (va, vb, status))) ∧
    (∀ (env : FnEnv) (st : ShimState) (args : Word) (a : Addr)
        (status : Int) (va vb vc : Word),
        st.pyarg_parsetuple = some a →
        env.callParseTuple a args "OOO" = (status, [va, vb, vc]) →
        parseArgsToObjectTriple env st args =
          (st, [CallEvent.parseTuple a args "OOO"],
           COutcome.ok (va, vb, vc, status))) := by
  refine ⟨?_, ?_, ?_, ?_, ?_, ?_⟩
  · intro env st args a status v h1 h2
    simp [parseArgsToString, h1, h2, readOut1]
  · intro env st args a status v h1 h2
    simp [parseArgsToLongInt, h1, h2, readOut1]
  · intro env st args a status v h1 h2
    simp [parseArgsToDouble, h1, h2, readOut1]
  · intro env st args a status v h1 h2
    simp [parseArgsToObject, h1, h2, readOut1]
  · intro env st args a status va vb h1 h2
    simp [parseArgsToObjectPair, h1, h2, readOut2]
  · intro env st args a status va vb vc h1 h2
    simp [parseArgsToObjectTriple, h1, h2, readOut3]

/-- Witness for C2: under the stub environment (status `1`, out-values
`42`) and the state resolved from `libAll`, each of the six parse
operations yields exactly the stub's values and status. -/
theorem parse_ops_delegate_once_and_pass_through_check :
    parseArgsToString testEnv testState 5 =
      (testState, [CallEvent.parseTuple 11 5 "s"], COutcome.ok (42, 1)) ∧
    parseArgsToLongInt testEnv testState 5 =
      (testState, [CallEvent.parseTuple 11 5 "l"], COutcome.ok (42, 1)) ∧
    parseArgsToDouble testEnv testState 5 =
      (testState, [CallEvent.parseTuple 11 5 "d"], COutcome.ok (42, 1)) ∧
    parseArgsToObject testEnv testState 5 =
      (testState, [CallEvent.parseTuple 11 5 "O"], COutcome.ok (42, 1)) ∧
    parseArgsToObjectPair testEnv testState 5 =
      (testState, [CallEvent.parseTuple 11 5 "OO"],
       COutcome.ok (42, 42, 1)) ∧
    parseArgsToObjectTriple testEnv testState 5 =
      (testState, [CallEvent.parseTuple 11 5 "OOO"],
       COutcome.ok (42, 42, 42, 1)) :=
  ⟨parse_ops_delegate_once_and_pass_through.1 testEnv testState 5 11 1 42
      rfl rfl,
   parse_ops_delegate_once_and_pass_through.2.1 testEnv testState 5 11 1 42
      rfl rfl,
   parse_ops_delegate_once_and_pass_through.2.2.1 testEnv testState 5 11 1 42
      rfl rfl,
   parse_ops_delegate_once_and_pass_through.2.2.2.1 testEnv testState 5 11 1
      42 rfl rfl,
   parse_ops_delegate_once_and_pass_through.2.2.2.2.1 testEnv testState 5 11
      1 42 42 rfl rfl,
   parse_ops_delegate_once_and_pass_through.2.2.2.2.2 testEnv testState 5 11
      1 42 42 42 rfl rfl⟩

/-- C3: each wrap operation delegates exactly once to its matching
resolved entry point — `Py_BuildValue` with the exact format specifier
(`"l"`, `"s"`, `"d"`, `"O"`) and the given argument for
`wrapLongInt`/`wrapString`/`wrapDouble`/`wrapObject`, and
`PyBool_FromLong` with the given argument for `wrapBool` — and returns
the underlying call's result unchanged. -/
theorem wrap_ops_delegate_once_and_pass_through :
    (∀ (env : FnEnv) (st : ShimState) (a : Addr) (v : Word),
        st.py_buildvalue = some a →
        wrapLongInt env st v =
          (st, [CallEvent.buildValue a "l" [v]],
           COutcome.ok (env.callBuildValue a "l" [v]))) ∧
    (∀ (env : FnEnv) (st : ShimState) (a : Addr) (v : Word),
        st.py_buildvalue = some a →
        wrapString env st v =
          (st, [CallEvent.buildValue a "s" [v]],
           COutcome.ok (env.callBuildValue a "s" [v]))) ∧
    (∀ (env : FnEnv) (st : ShimState) (a : Addr) (v : Word),
        st.py_buildvalue = some a →
        wrapDouble env st v =
          (st, [CallEvent.buildValue a "d" [v]],
           COutcome.ok (env.callBuildValue a "d" [v]))) ∧
    (∀ (env : FnEnv) (st : ShimState) (a : Addr) (v : Word),
        st.py_buildvalue = some a →
        wrapObject env st v =
          (st, [CallEvent.buildValue a "O" [v]],
           COutcome.ok (env.callBuildValue a "O" [v]))) ∧
    (∀ (env : FnEnv) (st : ShimState) (a : Addr) (v : Word),
        st.py_boolfromlong = some a →
        wrapBool env st v =
          (st, [CallEvent.boolFromLong a v],
           COutcome.ok (env.callBoolFromLong a v))) := by
  refine ⟨?_, ?_, ?_, ?_, ?_⟩ <;>
    · intro env st a v h1
      simp [wrapLongInt, wrapString, wrapDouble, wrapObject, wrapBool, h1]

/-- Witness for C3: under the stub environment and the state resolved
from `libAll`, each wrap operation returns the stub's result unchanged
(`Py_BuildValue` echoes its argument plus `100`, `PyBool_FromLong` its
argument plus `200`). -/
theorem wrap_ops_delegate_once_and_pass_through_check :
    wrapLongInt testEnv testState 7 =
      (testState, [CallEvent.buildValue 12 "l" [7]], COutcome.ok 107) ∧
    wrapString testEnv testState 7 =
      (testState, [CallEvent.buildValue 12 "s" [7]], COutcome.ok 107) ∧
    wrapDouble testEnv testState 7 =
      (testState, [CallEvent.buildValue 12 "d" [7]], COutcome.ok 107) ∧
    wrapObject testEnv testState 7 =
      (testState, [CallEvent.buildValue 12 "O" [7]], COutcome.ok 107) ∧
    wrapBool testEnv testState 0 =
      (testState, [CallEvent.boolFromLong 15 0], COutcome.ok 200) :=
  ⟨wrap_ops_delegate_once_and_pass_through.1 testEnv testState 12 7 rfl,
   wrap_ops_delegate_once_and_pass_through.2.1 testEnv testState 12 7 rfl,
   wrap_ops_delegate_once_and_pass_through.2.2.1 testEnv testState 12 7 rfl,
   wrap_ops_delegate_once_and_pass_through.2.2.2.1 testEnv testState 12 7 rfl,
   wrap_ops_delegate_once_and_pass_through.2.2.2.2 testEnv testState 15 0 rfl⟩

/-- C4: if the `PyUnicode_FromString` slot is NULL, invoking
`getPyUnicode_FromString` makes no foreign call, prints the Python-2
diagnostic and exits the process with code 1 (rather than dereferencing
the NULL pointer); if the slot is resolved, it returns the result of
calling the resolved entry point on the input. -/
theorem getPyUnicode_FromString_null_slot_exits :
    (∀ (env : FnEnv) (st : ShimState) (u : Word),
        st.pyunicode_fromstring = none →
        getPyUnicode_FromString env st u =
          (st, [], COutcome.exited 1 py2Diagnostic)) ∧
    (∀ (env : FnEnv) (st : ShimState) (a : Addr) (u : Word),
        st.pyunicode_fromstring = some a →
        getPyUnicode_FromString env st u =
          (st, [CallEvent.fromString a u],
           COutcome.ok (env.callFromString a u))) := by
  constructor
  · intro env st u h1
    simp [getPyUnicode_FromString, h1]
  · intro env st a u h1
    simp [getPyUnicode_FromString, h1]

/-- Witness for C4: with all slots NULL (before any resolution) the
operation exits with code 1 and the diagnostic; with the slot resolved
from `libAll` it returns the stub's result (`u + 400`). -/
theorem getPyUnicode_FromString_null_slot_exits_check :
    getPyUnicode_FromString testEnv initialState 9 =
      (initialState, [], COutcome.exited 1 py2Diagnostic) ∧
    getPyUnicode_FromString testEnv testState 9 =
      (testState, [CallEvent.fromString 14 9], COutcome.ok 409) :=
  ⟨getPyUnicode_FromString_null_slot_exits.1 testEnv initialState 9 rfl,
   getPyUnicode_FromString_null_slot_exits.2 testEnv testState 14 9 rfl⟩

/-- C10: `createPyCFunction` calls the resolved `PyCFunction_NewEx`
entry point with the caller's two arguments and a hardcoded NULL as the
third (module) argument, and returns its result unchanged; the interface
takes only `ml` and `data`, so the caller cannot supply a module object. -/
theorem createPyCFunction_passes_null_module :
    ∀ (env : FnEnv) (st : ShimState) (a : Addr) (ml data : Word),
      st.py_createPyCFunction = some a →
      createPyCFunction env st ml data =
        (st, [CallEvent.cFunctionNewEx a ml data nullPtr],
         COutcome.ok (env.callCFunctionNewEx a ml data nullPtr)) := by
  intro env st a ml data h1
  simp [createPyCFunction, h1]

/-- Witness for C10: with the slot resolved from `libAll`, the stub is
invoked with module argument `nullPtr = 0` (result `2 + 3 + 0 + 500`). -/
theorem createPyCFunction_passes_null_module_check :
    createPyCFunction testEnv testState 2 3 =
      (testState, [CallEvent.cFunctionNewEx 16 2 3 nullPtr],
       COutcome.ok 505) := by
  have h := createPyCFunction_passes_null_module testEnv testState 16 2 3 rfl
  simpa [testEnv, nullPtr] using h

/-- C8: every marshalling operation other than `getPyUnicode_FromString`
performs no slot check: with its backing slot NULL it makes no foreign
call and its outcome is undefined behaviour (the call through the NULL
function pointer) — never a silently defined result. -/
theorem marshalling_null_slot_undefined :
    (∀ (env : FnEnv) (st : ShimState) (args : Word),
        st.pyarg_parsetuple = none →
        parseArgsToString env st args = (st, [], COutcome.undef) ∧
        parseArgsToLongInt env st args = (st, [], COutcome.undef) ∧
        parseArgsToDouble env st args = (st, [], COutcome.undef) ∧
        parseArgsToObject env st args = (st, [], COutcome.undef) ∧
        parseArgsToObjectPair env st args = (st, [], COutcome.undef) ∧
        parseArgsToObjectTriple env st args = (st, [], COutcome.undef)) ∧
    (∀ (env : FnEnv) (st : ShimState) (v : Word),
        st.py_buildvalue = none →
        wrapLongInt env st v = (st, [], COutcome.undef) ∧
        wrapString env st v = (st, [], COutcome.undef) ∧
        wrapDouble env st v = (st, [], COutcome.undef) ∧
        wrapObject env st v = (st, [], COutcome.undef)) ∧
    (∀ (env : FnEnv) (st : ShimState) (v : Word),
        st.py_boolfromlong = none →
        wrapBool env st v = (st, [], COutcome.undef)) ∧
    (∀ (env : FnEnv) (st : ShimState) (p : Word),
        st.pyunicode_asutf8 = none →
        stringFromPythonObject env st p = (st, [], COutcome.undef)) ∧
    (∀ (env : FnEnv) (st : ShimState) (ml data : Word),
        st.py_createPyCFunction = none →
        createPyCFunction env st ml data = (st, [], COutcome.undef)) := by
  refine ⟨?_, ?_, ?_, ?_, ?_⟩
  · intro env st args h1
    simp [parseArgsToString, parseArgsToLongInt, parseArgsToDouble,
      parseArgsToObject, parseArgsToObjectPair, parseArgsToObjectTriple, h1]
  · intro env st v h1
    simp [wrapLongInt, wrapString, wrapDouble, wrapObject, h1]
  · intro env st v h1
    simp [wrapBool, h1]
  · intro env st p h1
    simp [stringFromPythonObject, h1]
  · intro env st ml data h1
    simp [createPyCFunction, h1]

/-- Witness for C8: in the zero-initialised state (all slots NULL) every
one of the thirteen operations is undefined behaviour. -/
theorem marshalling_null_slot_undefined_check :
    (parseArgsToString testEnv initialState 5 =
        (initialState, [], COutcome.undef) ∧
      parseArgsToLongInt testEnv initialState 5 =
        (initialState, [], COutcome.undef) ∧
      parseArgsToDouble testEnv initialState 5 =
        (initialState, [], COutcome.undef) ∧
      parseArgsToObject testEnv initialState 5 =
        (initialState, [], COutcome.undef) ∧
      parseArgsToObjectPair testEnv initialState 5 =
        (initialState, [], COutcome.undef) ∧
      parseArgsToObjectTriple testEnv initialState 5 =
        (initialState, [], COutcome.undef)) ∧
    (wrapLongInt testEnv initialState 7 =
        (initialState, [], COutcome.undef) ∧
      wrapString testEnv initialState 7 =
        (initialState, [], COutcome.undef) ∧
      wrapDouble testEnv initialState 7 =
        (initialState, [], COutcome.undef) ∧
      wrapObject testEnv initialState 7 =
        (initialState, [], COutcome.undef)) ∧
    wrapBool testEnv initialState 7 = (initialState, [], COutcome.undef) ∧
    stringFromPythonObject testEnv initialState 7 =
      (initialState, [], COutcome.undef) ∧
    createPyCFunction testEnv initialState 2 3 =
      (initialState, [], COutcome.undef) :=
  ⟨marshalling_null_slot_undefined.1 testEnv initialState 5 rfl,
   marshalling_null_slot_undefined.2.1 testEnv initialState 7 rfl,
   marshalling_null_slot_undefined.2.2.1 testEnv initialState 7 rfl,
   marshalling_null_slot_undefined.2.2.2.1 testEnv initialState 7 rfl,
   marshalling_null_slot_undefined.2.2.2.2 testEnv initialState 2 3 rfl⟩

/-- C9: every marshalling shim operation is frame-preserving: for every
environment, state and input, the six entry-point slots and the stored
library handle are unchanged after the call (the returned state is the
input state), and the operation performs at most its single delegated
foreign call (the call trace never holds more than one event, and the
model allocates nothing). -/
theorem marshalling_state_frame_and_single_call :
    ∀ (env : FnEnv) (st : ShimState) (x y : Word),
      ((parseArgsToString env st x).1 = st ∧
        (parseArgsToString env st x).2.1.length ≤ 1) ∧
      ((parseArgsToLongInt env st x).1 = st ∧
        (parseArgsToLongInt env st x).2.1.length ≤ 1) ∧
      ((parseArgsToDouble env st x).1 = st ∧
        (parseArgsToDouble env st x).2.1.length ≤ 1) ∧
      ((parseArgsToObject env st x).1 = st ∧
        (parseArgsToObject env st x).2.1.length ≤ 1) ∧
      ((parseArgsToObjectPair env st x).1 = st ∧
        (parseArgsToObjectPair env st x).2.1.length ≤ 1) ∧
      ((parseArgsToObjectTriple env st x).1 = st ∧
        (parseArgsToObjectTriple env st x).2.1.length ≤ 1) ∧
      ((wrapLongInt env st x).1 = st ∧
        (wrapLongInt env st x).2.1.length ≤ 1) ∧
      ((wrapString env st x).1 = st ∧
        (wrapString env st x).2.1.length ≤ 1) ∧
      ((wrapDouble env st x).1 = st ∧
        (wrapDouble env st x).2.1.length ≤ 1) ∧
      ((wrapObject env st x).1 = st ∧
        (wrapObject env st x).2.1.length ≤ 1) ∧
      ((wrapBool env st x).1 = st ∧
        (wrapBool env st x).2.1.length ≤ 1) ∧
      ((stringFromPythonObject env st x).1 = st ∧
        (stringFromPythonObject env st x).2.1.length ≤ 1) ∧
      ((getPyUnicode_FromString env st x).1 = st ∧
        (getPyUnicode_FromString env st x).2.1.length ≤ 1) ∧
      ((createPyCFunction env st x y).1 = st ∧
        (createPyCFunction env st x y).2.1.length ≤ 1) := by
  intro env st x y
  cases h1 : st.pyarg_parsetuple <;>
    cases h2 : st.py_buildvalue <;>
      cases h3 : st.py_boolfromlong <;>
        cases h4 : st.pyunicode_asutf8 <;>
          cases h5 : st.pyunicode_fromstring <;>
            cases h6 : st.py_createPyCFunction <;>
              simp [parseArgsToString, parseArgsToLongInt, parseArgsToDouble,
                parseArgsToObject, parseArgsToObjectPair,
                parseArgsToObjectTriple, wrapLongInt, wrapString, wrapDouble,
                wrapObject, wrapBool, stringFromPythonObject,
                getPyUnicode_FromString, createPyCFunction,
                h1, h2, h3, h4, h5, h6]
